import Mathlib

/-!
Verification of the AI Healing Pipeline agent (`src/agent/main.py`).

The service is a FastAPI application with four routes.  We shallowly embed
the request/response data model and the handler logic:

* JSON payloads are values of an inductive `Json` type; a request body for
  `POST /heal` is the association list of a JSON object.
* Pydantic validation of `PipelineFailure` is `validatePipelineFailure`:
  each required field must be present and be a JSON string (pydantic v2
  does not coerce numbers or booleans to `str`), `metadata` is an optional
  mapping; all field errors are collected into a `detail` list and the
  endpoint answers 422 without running the handler.
* The `HealingResult` response model carries the constraints
  `confidence ∈ [0, 1]` and `iterations ≥ 0` (`Field(..., ge=0.0, le=1.0)`
  and `Field(..., ge=0)`); constructing a `HealingResult` validates them,
  which we model with the fallible constructor `mkHealingResult`.
  `confidence` is the exact rational value of the literal involved.
* The handler body of `heal_pipeline` runs inside `try/except`; the
  `except` branch turns any raised exception into an HTTP 500 whose
  detail embeds the exception message.  `healHandler` is that boundary.
-/

/-- JSON values, as delivered to the request validation layer. -/
inductive Json where
  | null : Json
  | bool (b : Bool) : Json
  | num (q : ℚ) : Json
  | str (s : String) : Json
  | arr (elems : List Json) : Json
  | obj (fields : List (String × Json)) : Json

/-- A JSON object body, as handed to pydantic: an association list. -/
abbrev JsonObj := List (String × Json)

/-- Field lookup in a JSON object (first binding wins, as in parsed JSON). -/
def lookupField (kvs : JsonObj) (name : String) : Option Json :=
  List.lookup name kvs

/-- `PipelineFailure` (main.py lines 41-55): the validated request model.
`stage`, `error_message`, `logs`, `timestamp` are required `str` fields;
`metadata` is `Optional[Dict[str, Any]]` defaulting to `None`. -/
structure PipelineFailure where
  stage : String
  error_message : String
  logs : String
  timestamp : String
  metadata : Option (List (String × Json)) := none

/-- The names of the four required fields of `PipelineFailure`, in
declaration order. -/
def requiredFields : List String := ["stage", "error_message", "logs", "timestamp"]

/-- Validate one required `str` field: it must be present and be a JSON
string (pydantic v2 rejects numbers, booleans, null, arrays and objects
for a `str` field). -/
def checkStr (kvs : JsonObj) (name : String) : Except String String :=
  match lookupField kvs name with
  | none => .error ("Field required: " ++ name)
  | some (.str s) => .ok s
  | some _ => .error ("Input should be a valid string: " ++ name)

/-- Validate the optional `metadata` field: absent or `null` yields `None`;
otherwise it must be a JSON object (a `Dict[str, Any]`). -/
def checkMetadata (kvs : JsonObj) : Except String (Option (List (String × Json))) :=
  match lookupField kvs "metadata" with
  | none => .ok none
  | some .null => .ok none
  | some (.obj m) => .ok (some m)
  | some _ => .error "Input should be a valid dictionary: metadata"

/-- The error entries contributed by one field check. -/
def errsOf {α : Type} : Except String α → List String
  | .error e => [e]
  | .ok _ => []

/-- All validation errors of a `POST /heal` body, in field declaration
order — pydantic reports every failing field in the 422 `detail` list. -/
def validationErrors (kvs : JsonObj) : List String :=
  errsOf (checkStr kvs "stage") ++ errsOf (checkStr kvs "error_message") ++
    errsOf (checkStr kvs "logs") ++ errsOf (checkStr kvs "timestamp") ++
    errsOf (checkMetadata kvs)

/-- Pydantic validation of a `PipelineFailure` body: either every field
check passes and the model instance is built, or the collected `detail`
list is returned as the error. -/
def validatePipelineFailure (kvs : JsonObj) : Except (List String) PipelineFailure :=
  match checkStr kvs "stage", checkStr kvs "error_message",
      checkStr kvs "logs", checkStr kvs "timestamp", checkMetadata kvs with
  | .ok s, .ok em, .ok l, .ok t, .ok m =>
      .ok { stage := s, error_message := em, logs := l, timestamp := t, metadata := m }
  | _, _, _, _, _ => .error (validationErrors kvs)

/-- `HealingResult` (main.py lines 72-78): the response model.  The field
constraints `0.0 ≤ confidence ≤ 1.0` and `iterations ≥ 0` are enforced by
`mkHealingResult` below, the construction-time validation of the model. -/
structure HealingResult where
  success : Bool
  fix_applied : Option String
  confidence : ℚ
  iterations : Int
  message : String

/-- Constructing a `HealingResult(...)` validates the `Field` constraints
`confidence: ge=0.0, le=1.0` and `iterations: ge=0`; a violation raises a
`ValidationError`, modelled as `Except.error`. -/
def mkHealingResult (success : Bool) (fix_applied : Option String)
    (confidence : ℚ) (iterations : Int) (message : String) :
    Except String HealingResult :=
  if confidence < 0 then
    .error "confidence: Input should be greater than or equal to 0"
  else if 1 < confidence then
    .error "confidence: Input should be less than or equal to 1"
  else if iterations < 0 then
    .error "iterations: Input should be greater than or equal to 0"
  else
    .ok { success := success, fix_applied := fix_applied,
          confidence := confidence, iterations := iterations, message := message }

/-- The possible HTTP outcomes of `POST /heal`: a 200 with a serialized
`HealingResult`, a 422 carrying the pydantic `detail` list, or a 500
raised by the `except` branch of the handler. -/
inductive HealResponse where
  | ok200 (result : HealingResult) : HealResponse
  | unprocessable422 (detail : List String) : HealResponse
  | serverError500 (detail : String) : HealResponse

/-- The HTTP status code of a `/heal` response. -/
def statusOf : HealResponse → Nat
  | .ok200 _ => 200
  | .unprocessable422 _ => 422
  | .serverError500 _ => 500

/-- The `success` field of a 200 response body, if any. -/
def successOf : HealResponse → Option Bool
  | .ok200 r => some r.success
  | _ => none

/-- The `confidence` field of a 200 response body, if any. -/
def confidenceOf : HealResponse → Option ℚ
  | .ok200 r => some r.confidence
  | _ => none

/-- The fixed `fix_applied` string of the placeholder verdict
(main.py line 134). -/
def fixAppliedPlaceholder : String := "Placeholder - Week 2 will implement AI agent"

/-- The message f-string of main.py line 137, interpolating the stage. -/
def healMessage (stage : String) : String :=
  "Acknowledged failure in " ++ stage ++ ". Ready for AI implementation."

/-- The `try/except` boundary of the handler (main.py lines 128-148): a
successful body value is returned as the 200 response; any exception the
body raises is caught and converted into an `HTTPException` with status
500 and detail `"Internal error: " + str(e)`. -/
def healHandler (body : Except String HealingResult) : HealResponse :=
  match body with
  | .ok result => .ok200 result
  | .error e => .serverError500 ("Internal error: " ++ e)

/-- `heal_pipeline` (main.py lines 114-148) on an already validated
`PipelineFailure`: build the constant placeholder `HealingResult` inside
the `try/except` boundary. -/
def heal_pipeline (failure : PipelineFailure) : HealResponse :=
  healHandler (mkHealingResult true (some fixAppliedPlaceholder)
    (95 / 100) 1 (healMessage failure.stage))

/-- The full `POST /heal` endpoint on a JSON object body: pydantic
validation runs first; on failure the framework answers 422 with the
`detail` list and the handler body never runs, otherwise the handler runs
on the validated model. -/
def postHeal (kvs : JsonObj) : HealResponse :=
  match validatePipelineFailure kvs with
  | .error detail => .unprocessable422 detail
  | .ok failure => heal_pipeline failure

/-- The responses of a sequence of `/heal` requests: each request is
handled independently — the application keeps no state across requests
(main.py has no store; only the logger is shared). -/
def respondAll (bodies : List JsonObj) : List HealResponse :=
  bodies.map postHeal

/-- Body of the `GET /health` response (main.py lines 100-111). -/
structure HealthBody where
  status : String
  timestamp : String

/-- `health_check` (main.py lines 100-111): returns the constant status
string and the current UTC timestamp; no dependency checks, no failure
path.  The timestamp source `datetime.utcnow().isoformat()` is passed in
as `now`. -/
def health_check (now : String) : Nat × HealthBody :=
  (200, { status := "healthy", timestamp := now })

/-- Body of the `GET /metrics` response (main.py lines 151-163). -/
structure MetricsBody where
  total_healings : Int
  success_rate : ℚ
  average_resolution_time : ℚ
  timestamp : String

/-- `get_metrics` (main.py lines 151-163): a static payload of zeros plus
the current timestamp; no aggregation over past requests. -/
def get_metrics (now : String) : Nat × MetricsBody :=
  (200, { total_healings := 0, success_rate := 0,
          average_resolution_time := 0, timestamp := now })

/-- The concrete scenario body of the spec: stage "test". -/
def samplePayload : JsonObj :=
  [("stage", Json.str "test"), ("error_message", Json.str "AssertionError"),
   ("logs", Json.str "trace"), ("timestamp", Json.str "2024-01-27T12:00:00Z")]

/-- The `PipelineFailure` that `samplePayload` validates to. -/
def sampleFailure : PipelineFailure :=
  { stage := "test", error_message := "AssertionError", logs := "trace",
    timestamp := "2024-01-27T12:00:00Z", metadata := none }

/-- Whether a JSON value is a string. -/
def Json.isStr : Json → Bool
  | .str _ => true
  | _ => false

/-- A valid payload whose `stage` and `timestamp` are empty strings. -/
def emptyStringPayload : JsonObj :=
  [("stage", Json.str ""), ("error_message", Json.str ""),
   ("logs", Json.str ""), ("timestamp", Json.str "")]

-- Helper lemmas shared by several claims.

theorem checkStr_error_of_bad (kvs : JsonObj) (name : String)
    (h : lookupField kvs name = none ∨
      ∃ v, lookupField kvs name = some v ∧ v.isStr = false) :
    ∃ e, checkStr kvs name = .error e := by
  rcases h with h | ⟨v, hv, hstr⟩
  · exact ⟨"Field required: " ++ name, by simp [checkStr, h]⟩
  · refine ⟨"Input should be a valid string: " ++ name, ?_⟩
    cases v with
    | str s => simp [Json.isStr] at hstr
    | null => simp [checkStr, hv]
    | bool b => simp [checkStr, hv]
    | num q => simp [checkStr, hv]
    | arr xs => simp [checkStr, hv]
    | obj m => simp [checkStr, hv]

theorem validationErrors_ne_nil (kvs : JsonObj) (name : String) (e : String)
    (hmem : name ∈ requiredFields) (he : checkStr kvs name = .error e) :
    validationErrors kvs ≠ [] := by
  simp only [requiredFields, List.mem_cons, List.not_mem_nil, or_false] at hmem
  rcases hmem with rfl | rfl | rfl | rfl <;>
    simp [validationErrors, errsOf, he]

theorem validate_eq_error (kvs : JsonObj) (hne : validationErrors kvs ≠ []) :
    validatePipelineFailure kvs = .error (validationErrors kvs) := by
  unfold validatePipelineFailure
  cases h1 : checkStr kvs "stage" <;> cases h2 : checkStr kvs "error_message" <;>
    cases h3 : checkStr kvs "logs" <;> cases h4 : checkStr kvs "timestamp" <;>
      cases h5 : checkMetadata kvs <;>
        simp_all [validationErrors, errsOf]

/-- The `detail` of a 500 response, if any. -/
def errorDetailOf : HealResponse → Option String
  | .serverError500 d => some d
  | _ => none

/-- Evaluating the constant `HealingResult(...)` construction of main.py
lines 132-138: every field constraint holds, so construction succeeds. -/
theorem mkHealingResult_const (fa : Option String) (m : String) :
    mkHealingResult true fa (95/100) 1 m =
      .ok ({ success := true, fix_applied := fa, confidence := 95/100, iterations := 1, message := m }) := by
  unfold mkHealingResult
  norm_num

/-- The handler always returns the placeholder verdict for its stage. -/
theorem heal_pipeline_eq (f : PipelineFailure) :
    heal_pipeline f =
      .ok200 ({ success := true, fix_applied := some fixAppliedPlaceholder, confidence := 95/100, iterations := 1, message := healMessage f.stage }) := by
  simp [heal_pipeline, mkHealingResult_const, healHandler]

/-- A failure record with stage "test", differing from `failureB` in every
other field. -/
def failureA : PipelineFailure :=
  { stage := "test", error_message := "a", logs := "la", timestamp := "t1", metadata := none }

/-- A failure record with stage "test" and different non-stage fields. -/
def failureB : PipelineFailure :=
  { stage := "test", error_message := "b", logs := "lb", timestamp := "t2",
    metadata := some [("branch", Json.str "main")] }

/-- The concrete invalid body of the spec scenario: `logs` and
`timestamp` are missing. -/
def missingPayload : JsonObj :=
  [("stage", Json.str "test"), ("error_message", Json.str "x")]

/-- C1: for every valid FailureReport payload, POST /heal returns status
200 with a HealingVerdict whose success is true, confidence is 0.95,
iterations is 1, fix_applied is the fixed non-null placeholder string, and
whose message contains the submitted stage value as a substring. -/
theorem heal_valid_returns_placeholder_verdict (kvs : JsonObj) (f : PipelineFailure)
    (h : validatePipelineFailure kvs = .ok f) :
    ∃ r, postHeal kvs = .ok200 r ∧ statusOf (postHeal kvs) = 200 ∧
      r.success = true ∧ r.confidence = 95/100 ∧ r.iterations = 1 ∧
      r.fix_applied = some fixAppliedPlaceholder ∧
      ∃ pre post, r.message = pre ++ f.stage ++ post := by
  have hp : postHeal kvs =
      .ok200 ({ success := true, fix_applied := some fixAppliedPlaceholder, confidence := 95/100, iterations := 1, message := healMessage f.stage }) := by
    simp [postHeal, h, heal_pipeline_eq]
  exact ⟨_, hp, by simp [hp, statusOf], rfl, rfl, rfl, rfl,
    "Acknowledged failure in ", ". Ready for AI implementation.", rfl⟩

/-- Witness for C1: the concrete spec scenario with stage "test". -/
theorem heal_valid_returns_placeholder_verdict_witness :
    ∃ r, postHeal samplePayload = .ok200 r ∧ statusOf (postHeal samplePayload) = 200 ∧
      r.success = true ∧ r.confidence = 95/100 ∧ r.iterations = 1 ∧
      r.fix_applied = some fixAppliedPlaceholder ∧
      ∃ pre post, r.message = pre ++ sampleFailure.stage ++ post :=
  heal_valid_returns_placeholder_verdict samplePayload sampleFailure rfl

/-- C2: for every POST /heal body missing one of the four required fields,
or binding one of them to a non-string JSON value, the response is the 422
branch carrying the nonempty pydantic `detail` list; the handler is never
reached, since `postHeal` only invokes `heal_pipeline` after validation
succeeds. -/
theorem heal_invalid_returns_422 (kvs : JsonObj)
    (h : ∃ name ∈ requiredFields, lookupField kvs name = none ∨
      ∃ v, lookupField kvs name = some v ∧ v.isStr = false) :
    postHeal kvs = .unprocessable422 (validationErrors kvs) ∧
      validationErrors kvs ≠ [] ∧ statusOf (postHeal kvs) = 422 := by
  obtain ⟨name, hmem, hbad⟩ := h
  obtain ⟨e, he⟩ := checkStr_error_of_bad kvs name hbad
  have hne := validationErrors_ne_nil kvs name e hmem he
  have hv := validate_eq_error kvs hne
  refine ⟨?_, hne, ?_⟩ <;> simp [postHeal, hv, statusOf]

/-- Witness for C2: the concrete spec scenario missing logs and
timestamp. -/
theorem heal_invalid_returns_422_witness :
    postHeal missingPayload = .unprocessable422 (validationErrors missingPayload) ∧
      validationErrors missingPayload ≠ [] ∧ statusOf (postHeal missingPayload) = 422 :=
  heal_invalid_returns_422 missingPayload ⟨"logs", by decide, Or.inl rfl⟩

/-- C3: every valid payload yields a verdict with confidence in [0, 1] and
nonnegative iterations, and the bounds are enforced by the response model
itself: any `HealingResult` that construction lets through satisfies
them. -/
theorem heal_confidence_iterations_bounds :
    (∀ kvs f, validatePipelineFailure kvs = .ok f →
      ∃ r, postHeal kvs = .ok200 r ∧
        0 ≤ r.confidence ∧ r.confidence ≤ 1 ∧ 0 ≤ r.iterations) ∧
    (∀ s fa c i m r, mkHealingResult s fa c i m = .ok r →
      0 ≤ r.confidence ∧ r.confidence ≤ 1 ∧ 0 ≤ r.iterations) := by
  constructor
  · intro kvs f h
    refine ⟨{ success := true, fix_applied := some fixAppliedPlaceholder, confidence := 95/100, iterations := 1, message := healMessage f.stage }, ?_, by norm_num, by norm_num, by norm_num⟩
    simp [postHeal, h, heal_pipeline_eq]
  · intro s fa c i m r h
    unfold mkHealingResult at h
    by_cases h1 : c < 0
    · rw [if_pos h1] at h
      exact absurd h (by simp)
    · by_cases h2 : 1 < c
      · rw [if_neg h1, if_pos h2] at h
        exact absurd h (by simp)
      · by_cases h3 : i < 0
        · rw [if_neg h1, if_neg h2, if_pos h3] at h
          exact absurd h (by simp)
        · rw [if_neg h1, if_neg h2, if_neg h3] at h
          have hr : r = { success := s, fix_applied := fa, confidence := c, iterations := i, message := m } :=
            (Except.ok.inj h).symm
          rw [hr]
          exact ⟨not_lt.mp h1, not_lt.mp h2, not_lt.mp h3⟩

/-- Witness for C3: both conjuncts applied at concrete inputs. -/
theorem heal_confidence_iterations_bounds_witness :
    (∃ r, postHeal samplePayload = .ok200 r ∧
      0 ≤ r.confidence ∧ r.confidence ≤ 1 ∧ 0 ≤ r.iterations) ∧
    (0 ≤ (95/100 : ℚ) ∧ (95/100 : ℚ) ≤ 1 ∧ 0 ≤ (1 : Int)) :=
  ⟨heal_confidence_iterations_bounds.1 samplePayload sampleFailure rfl,
    heal_confidence_iterations_bounds.2 true none (95/100) 1 "m"
      ({ success := true, fix_applied := none, confidence := 95/100, iterations := 1, message := "m" })
      (mkHealingResult_const none "m")⟩

/-- C4: submitting the same valid payload at any two points of any two
request histories yields the same response, in particular equal success
and confidence; each request is answered independently of history. -/
theorem heal_idempotent (h₁ h₂ : List JsonObj) (j : JsonObj) (r₁ r₂ : HealResponse)
    (e₁ : (respondAll (h₁ ++ [j])).getLast? = some r₁)
    (e₂ : (respondAll (h₂ ++ [j])).getLast? = some r₂) :
    r₁ = r₂ ∧ successOf r₁ = successOf r₂ ∧ confidenceOf r₁ = confidenceOf r₂ := by
  have g : ∀ h : List JsonObj, (respondAll (h ++ [j])).getLast? = some (postHeal j) := by
    intro h
    simp [respondAll, List.map_append, List.getLast?_concat]
  have g₁ : r₁ = postHeal j := by
    rw [g h₁] at e₁
    exact (Option.some.inj e₁).symm
  have g₂ : r₂ = postHeal j := by
    rw [g h₂] at e₂
    exact (Option.some.inj e₂).symm
  subst g₁
  subst g₂
  exact ⟨rfl, rfl, rfl⟩

/-- Witness for C4: the sample payload submitted after two different
histories. -/
theorem heal_idempotent_witness :
    postHeal samplePayload = postHeal samplePayload ∧
      successOf (postHeal samplePayload) = successOf (postHeal samplePayload) ∧
      confidenceOf (postHeal samplePayload) = confidenceOf (postHeal samplePayload) :=
  heal_idempotent [] [emptyStringPayload] samplePayload
    (postHeal samplePayload) (postHeal samplePayload) rfl rfl

/-- Counterexample to C5: a payload whose `stage` and `timestamp` are the
empty string passes validation and gets a 200 response — the `str` fields
of `PipelineFailure` carry no minimum-length constraint. -/
theorem empty_strings_accepted_counterexample :
    validatePipelineFailure emptyStringPayload =
      .ok ({ stage := "", error_message := "", logs := "", timestamp := "", metadata := none }) ∧
    statusOf (postHeal emptyStringPayload) = 200 := by
  constructor
  · rfl
  · have h : validatePipelineFailure emptyStringPayload =
        .ok ({ stage := "", error_message := "", logs := "", timestamp := "", metadata := none }) := rfl
    simp [postHeal, h, heal_pipeline_eq, statusOf]

/-- C5 amended: POST /heal accepts a FailureReport whenever the four
required fields are present as strings of any length; in particular a
payload whose stage and timestamp are the empty string passes validation
and receives status 200. -/
theorem heal_accepts_any_strings (s em l t : String) :
    validatePipelineFailure [("stage", Json.str s), ("error_message", Json.str em), ("logs", Json.str l), ("timestamp", Json.str t)] =
      .ok ({ stage := s, error_message := em, logs := l, timestamp := t, metadata := none }) ∧
    statusOf (postHeal [("stage", Json.str s), ("error_message", Json.str em), ("logs", Json.str l), ("timestamp", Json.str t)]) = 200 := by
  constructor
  · rfl
  · have h : validatePipelineFailure [("stage", Json.str s), ("error_message", Json.str em), ("logs", Json.str l), ("timestamp", Json.str t)] =
        .ok ({ stage := s, error_message := em, logs := l, timestamp := t, metadata := none }) := rfl
    simp [postHeal, h, heal_pipeline_eq, statusOf]

/-- C6: any exception raised by the handler body is caught at the
`try/except` boundary and converted into a status 500 response whose
detail embeds the exception message text. -/
theorem handler_exception_returns_500 (e : String) :
    healHandler (Except.error e) = .serverError500 ("Internal error: " ++ e) ∧
    statusOf (healHandler (Except.error e)) = 500 ∧
    ∃ pre, errorDetailOf (healHandler (Except.error e)) = some (pre ++ e) :=
  ⟨rfl, rfl, "Internal error: ", rfl⟩

/-- C7: GET /health always returns status 200 with status field "healthy"
and a timestamp field; it is a total function of the clock alone, with no
dependency checks and no failure path. -/
theorem health_check_always_healthy (now : String) :
    (health_check now).1 = 200 ∧ (health_check now).2.status = "healthy" ∧
      (health_check now).2.timestamp = now :=
  ⟨rfl, rfl, rfl⟩

/-- C8: GET /metrics always returns status 200 with the static zero
payload and a timestamp field; the response is a constant of the clock
alone, so no aggregation over past requests occurs. -/
theorem get_metrics_static (now : String) :
    get_metrics now = (200, ({ total_healings := 0, success_rate := 0, average_resolution_time := 0, timestamp := now })) :=
  rfl

/-- C9: for every valid PipelineFailure the handler body never raises:
the constant verdict satisfies every field constraint, so construction
succeeds, the except branch is unreachable, and /heal never answers
500. -/
theorem heal_handler_body_never_raises (f : PipelineFailure) :
    mkHealingResult true (some fixAppliedPlaceholder) (95/100) 1 (healMessage f.stage) =
      .ok ({ success := true, fix_applied := some fixAppliedPlaceholder, confidence := 95/100, iterations := 1, message := healMessage f.stage }) ∧
    heal_pipeline f =
      .ok200 ({ success := true, fix_applied := some fixAppliedPlaceholder, confidence := 95/100, iterations := 1, message := healMessage f.stage }) ∧
    statusOf (heal_pipeline f) ≠ 500 := by
  refine ⟨mkHealingResult_const _ _, heal_pipeline_eq f, ?_⟩
  simp [heal_pipeline_eq f, statusOf]

/-- C10: the /heal response depends on no input field other than the
stage: two valid failure reports with equal stage values get identical
responses. -/
theorem heal_depends_only_on_stage (f g : PipelineFailure) (h : f.stage = g.stage) :
    heal_pipeline f = heal_pipeline g := by
  simp [heal_pipeline, healMessage, h]

/-- Witness for C10: two reports sharing stage "test" but differing in
error_message, logs, timestamp and metadata. -/
theorem heal_depends_only_on_stage_witness :
    heal_pipeline failureA = heal_pipeline failureB :=
  heal_depends_only_on_stage failureA failureB rfl
